import Mathlib

/-!
Verification development for the GACC fire dashboard core
(`fems_fetcher.py` and the alerting/baseline helpers of `app.py`).

Numbers: Python floats are modelled as rationals (ℚ).  Calendar dates are
modelled as integer day numbers with an epoch chosen so that
`d % 7 = Python date.weekday()` (Monday = 0, …, Sunday = 6).
Python `round(x, 1)` (round-half-to-even at one decimal) is modelled
exactly on ℚ; none of the verified properties exercises an inexact
binary-float tie.
-/

namespace GaccFire

/-- Python `round(x, 1)`: scale by 10, round half to even, scale back. -/
def round1 (x : ℚ) : ℚ :=
  let y := 10 * x
  let f : ℤ := ⌊y⌋
  let r : ℚ := y - f
  let n : ℤ :=
    if r < 1/2 then f
    else if 1/2 < r then f + 1
    else if f % 2 = 0 then f else f + 1
  (n : ℚ) / 10

/-- `statistics.mean` on a list of numbers. -/
def mean (l : List ℚ) : ℚ := l.sum / l.length

/-- `fems_fetcher._safe_mean`:
`vals = [v for v in values if v and v > 0]` (Python truthiness of a float
is `v ≠ 0`), then `round(mean(vals), 1) if vals else 0.0`. -/
def safe_mean (values : List ℚ) : ℚ :=
  let vals := values.filter fun v => decide (v ≠ 0) && decide (0 < v)
  if vals.isEmpty then 0 else round1 (mean vals)

/-- Modelled from the spec: the Zone Aggregator day value as the spec words it —
arithmetic mean of the valid contributing values rounded to one decimal,
and null (absent) when zero stations contributed.  Used only to compare the
spec's wording with the source's `_safe_mean`. -/
def spec_day_value (values : List ℚ) : Option ℚ :=
  let vals := values.filter fun v => decide (v ≠ 0) && decide (0 < v)
  if vals.isEmpty then none else some (round1 (mean vals))

/-- `date.weekday()` on day numbers (epoch aligned so Monday ≡ 0 mod 7). -/
def weekday (d : ℤ) : ℤ := d % 7

/-- `next_weekday(d, wd)` from `aggregate_to_psa`:
`days = (wd - d.weekday()) % 7 or 7; return d + timedelta(days=days)`. -/
def next_weekday (d wd : ℤ) : ℤ :=
  let m := (wd - weekday d) % 7
  d + (if m = 0 then 7 else m)

/-- `monday` as computed in `fetch_forecast`:
`today + timedelta(days=(7 - today.weekday()) % 7 or 7)`. -/
def fetch_window_monday (today : ℤ) : ℤ :=
  let m := (7 - weekday today) % 7
  today + (if m = 0 then 7 else m)

/-- The eight day labels of the `day_map` dict, in insertion order. -/
inductive Label
  | yd | td | Wed | Thu | Fri | Sat | Sun | Mon
deriving DecidableEq, Repr

/-- `day_map` from `aggregate_to_psa`: label → calendar date. -/
def day_map (today : ℤ) : Label → ℤ
  | .yd  => today - 1
  | .td  => today
  | .Wed => next_weekday today 2
  | .Thu => next_weekday today 3
  | .Fri => next_weekday today 4
  | .Sat => next_weekday today 5
  | .Sun => next_weekday today 6
  | .Mon => next_weekday today 0

/-- The fixed label ordering of the `day_map` dict. -/
def dayLabels : List Label := [.yd, .td, .Wed, .Thu, .Fri, .Sat, .Sun, .Mon]

/-- The forecast labels (everything but `yd` and `td`). -/
def forecastLabels : List Label := [.Wed, .Thu, .Fri, .Sat, .Sun, .Mon]

/-- One record of `fetch_forecast`'s per-station result list:
`{"date": summary_date, "erc": float(... or 0), "fm": float(... or 0), ...}`.
A null field value has already been coerced to `0.0` by `fetch_forecast`. -/
structure Obs where
  date : ℤ
  erc  : ℚ
  fm   : ℚ
deriving DecidableEq, Repr

/-- The `forecasts` dict (station id → list of records); `none` models a
station id absent from the dict. -/
def Forecasts : Type := ℕ → Option (List Obs)

/-- `forecasts.get(sid, [])`. -/
def getObs (fore : Forecasts) (sid : ℕ) : List Obs := (fore sid).getD []

/-- `erc_by_day[label]` as built by the station/observation loop of
`aggregate_to_psa`: for each station in order, for each of its records in
order, append `obs["erc"]` when the record's date is the label's date and
`obs["erc"] > 0`. -/
def erc_by_day (today : ℤ) (ids : List ℕ) (fore : Forecasts) (l : Label) : List ℚ :=
  ids.flatMap fun sid =>
    (getObs fore sid).filterMap fun obs =>
      if obs.date = day_map today l ∧ 0 < obs.erc then some obs.erc else none

/-- `fm_by_day[label]`, same loop with `obs["fm"] > 0`. -/
def fm_by_day (today : ℤ) (ids : List ℕ) (fore : Forecasts) (l : Label) : List ℚ :=
  ids.flatMap fun sid =>
    (getObs fore sid).filterMap fun obs =>
      if obs.date = day_map today l ∧ 0 < obs.fm then some obs.fm else none

/-- `erc_row[label] = _safe_mean(erc_by_day[label])`. -/
def erc_row (today : ℤ) (ids : List ℕ) (fore : Forecasts) (l : Label) : ℚ :=
  safe_mean (erc_by_day today ids fore l)

/-- `fm_row[label] = _safe_mean(fm_by_day[label])`. -/
def fm_row (today : ℤ) (ids : List ℕ) (fore : Forecasts) (l : Label) : ℚ :=
  safe_mean (fm_by_day today ids fore l)

/-- The `ERC_Trend` output dict: no `yd` key, `td` pinned to `0.0`, and each
forecast label mapped to `round(_safe_mean(vals) - today_erc, 1)` where
`today_erc = erc_row["td"]`. -/
def erc_trend_row (today : ℤ) (ids : List ℕ) (fore : Forecasts) : Label → Option ℚ
  | .yd => none
  | .td => some 0
  | l => some (round1 (safe_mean (erc_by_day today ids fore l) - erc_row today ids fore .td))

/-- One station's entry of the `fetch_percentile_thresholds` result
(nulls already coerced to `0.0` by `float(... or 0)`). -/
structure PctRec where
  erc_p90 : ℚ
  erc_p97 : ℚ
  fm_p90  : ℚ
  fm_p97  : ℚ
deriving DecidableEq, Repr

/-- One station's entry of the `fetch_climo_mean` result. -/
structure ClimoRec where
  erc_mean : ℚ
  fm_mean  : ℚ
deriving DecidableEq, Repr

/-- `[percentiles[s][field] for s in station_ids if s in percentiles]`. -/
def presentVals {R : Type} (ids : List ℕ) (tbl : ℕ → Option R) (f : R → ℚ) : List ℚ :=
  ids.filterMap fun s => (tbl s).map f

/-- One field block of the per-PSA output (`ERC` or `FM`): the eight day
values plus `Climo_Mean`, `Pctile_90`, `Pctile_97`. -/
structure FieldRow where
  days       : Label → ℚ
  climo_mean : ℚ
  p90        : ℚ
  p97        : ℚ

/-- The per-PSA output record built by `aggregate_to_psa`
(the `fetched_at` timestamp and the echoed id/day-label strings are not
modelled; they carry no aggregation logic). -/
structure PsaAgg where
  erc                : FieldRow
  fm                 : FieldRow
  erc_trend          : Label → Option ℚ
  station_count      : ℕ
  stations_with_data : ℕ

/-- `aggregate_to_psa(psa_id, station_ids, percentiles, climo_means, forecasts)`. -/
def aggregate_to_psa (today : ℤ) (ids : List ℕ) (pct : ℕ → Option PctRec)
    (climo : ℕ → Option ClimoRec) (fore : Forecasts) : PsaAgg :=
  { erc :=
      { days       := erc_row today ids fore
        climo_mean := safe_mean (presentVals ids climo (·.erc_mean))
        p90        := safe_mean (presentVals ids pct (·.erc_p90))
        p97        := safe_mean (presentVals ids pct (·.erc_p97)) }
    fm :=
      { days       := fm_row today ids fore
        climo_mean := safe_mean (presentVals ids climo (·.fm_mean))
        p90        := safe_mean (presentVals ids pct (·.fm_p90))
        p97        := safe_mean (presentVals ids pct (·.fm_p97)) }
    erc_trend          := erc_trend_row today ids fore
    station_count      := ids.length
    stations_with_data := (ids.filter fun s => (fore s).isSome).length }

/-- The alert tiers of `app.alert_level` (the function also returns a colour
and a CSS class per tier; only the tier label carries logic). -/
inductive Tier
  | CRITICAL | HIGH | ELEVATED | NORMAL | UNKNOWN
deriving DecidableEq, Repr

/-- Python truthiness of an optional float: `None` and `0.0` are falsy. -/
def truthy : Option ℚ → Bool
  | none => false
  | some x => decide (x ≠ 0)

/-- `app.alert_level(val, p90, p95, p97)`:
`if val is None: UNKNOWN; if p97 and val >= p97: CRITICAL;
if p95 and val >= p95: HIGH; if p90 and val >= p90: ELEVATED; NORMAL`. -/
def alert_level (val p90 p95 p97 : Option ℚ) : Tier :=
  match val with
  | none => .UNKNOWN
  | some v =>
    if truthy p97 && decide (p97.getD 0 ≤ v) then .CRITICAL
    else if truthy p95 && decide (p95.getD 0 ≤ v) then .HIGH
    else if truthy p90 && decide (p90.getD 0 ≤ v) then .ELEVATED
    else .NORMAL

/-- The parsed `gacc_climo_baseline.json` content: its `psa` mapping,
modelled as an association list from `"GACC|PSA"` keys to per-field entries. -/
structure BaselineStore where
  psa : List (String × List (String × ℚ))
deriving DecidableEq

/-- Presence or absence of the baseline file on disk. -/
inductive BaselineFile
  | absent
  | present (store : BaselineStore)

/-- `app.load_baseline`: `if not p.exists(): return {}` else parse the file.
The function is total — there is no error path for a missing file. -/
def load_baseline : BaselineFile → BaselineStore
  | .absent => ⟨[]⟩
  | .present s => s

/-- `app.get_psa_baseline(gacc_name, psa_id, baseline)`:
`baseline.get('psa', {}).get(f'{gacc_name}|{psa_id}', {})`. -/
def get_psa_baseline (gacc_name psa_id : String) (b : BaselineStore) :
    List (String × ℚ) :=
  (((b.psa.find? fun kv => kv.1 = gacc_name ++ "|" ++ psa_id).map Prod.snd).getD [])

/-- Outcome of one HTTP attempt inside `_query` (the response body is
abstracted to a numeric token — only control flow matters here). -/
inductive AttemptRes
  | ok (data : ℕ)
  | timeout
  | httpErr (code : ℕ)
  | exc
deriving DecidableEq, Repr

/-- The ways `_query` can fail: `PermissionError` on 401/403 (`auth`),
a re-raised `HTTPError` on the final attempt (`http`), a re-raised generic
exception on the final attempt (`other`), and the terminal
`RuntimeError("All N attempts failed")` (`allFailed`). -/
inductive QueryErr
  | auth (code : ℕ)
  | http (code : ℕ)
  | other
  | allFailed
deriving DecidableEq, Repr

/-- The retry loop of `_query` over the per-attempt outcomes; the list holds
one entry per loop iteration (`retries` entries in all, 3 by default), so a
singleton is the final attempt.  Timeouts and generic errors retry until the
final attempt; an `HTTPError` with status 401/403 raises `PermissionError`
at once; other `HTTPError`s retry and re-raise on the final attempt; a loop
that runs out of attempts (all timeouts) falls through to the
`RuntimeError`. -/
def runAttempts : List AttemptRes → Except QueryErr ℕ
  | [] => .error .allFailed
  | [r] =>
    match r with
    | .ok d => .ok d
    | .timeout => .error .allFailed
    | .httpErr c => if c = 401 ∨ c = 403 then .error (.auth c) else .error (.http c)
    | .exc => .error .other
  | r :: rest =>
    match r with
    | .ok d => .ok d
    | .timeout => runAttempts rest
    | .httpErr c => if c = 401 ∨ c = 403 then .error (.auth c) else runAttempts rest
    | .exc => runAttempts rest

/-- The `time.sleep(2 ** attempt)` backoff trace of the same loop: seconds
slept before each re-attempt (no sleep when returning or raising). -/
def backoffSleeps (attempt : ℕ) : List AttemptRes → List ℕ
  | [] => []
  | [_] => []
  | r :: rest =>
    match r with
    | .ok _ => []
    | .timeout => 2 ^ attempt :: backoffSleeps (attempt + 1) rest
    | .httpErr c => if c = 401 ∨ c = 403 then [] else 2 ^ attempt :: backoffSleeps (attempt + 1) rest
    | .exc => 2 ^ attempt :: backoffSleeps (attempt + 1) rest

/-- `_fetch_batched`: fetch each chunk in order and merge the results
(merging abstracted to collecting); an exception from `fetch_fn` propagates
immediately — there is no per-chunk or per-station handler. -/
def fetch_batched {α : Type} (chunks : List α) (fetch_fn : α → Except QueryErr ℕ) :
    Except QueryErr (List ℕ) :=
  match chunks with
  | [] => .ok []
  | c :: rest =>
    match fetch_fn c with
    | .error e => .error e
    | .ok d =>
      match fetch_batched rest fetch_fn with
      | .error e => .error e
      | .ok ds => .ok (d :: ds)

/-- Pointwise permutation of two forecast dicts: same stations present, each
station's record list permuted. -/
def OptPerm : Option (List Obs) → Option (List Obs) → Prop
  | none, none => True
  | some a, some b => a.Perm b
  | _, _ => False

/-- The filtered list inside `_safe_mean` (named for reuse in proofs). -/
def validFilter (values : List ℚ) : List ℚ :=
  values.filter fun v => decide (v ≠ 0) && decide (0 < v)

/-- Scenario for P2: stations 1 and 2 report ERC 10 and 20 on today's date,
station 3 is absent from the forecasts dict (its value is missing). -/
def c2Fore (today : ℤ) : Forecasts := fun s =>
  if s = 1 then some [⟨day_map today .td, 10, 10⟩]
  else if s = 2 then some [⟨day_map today .td, 20, 20⟩]
  else none

/-- Scenario for the zero-validity claim: on day 0 (= `td` when today = 0),
station 1 reports FM exactly 0 and station 2 reports FM 10. -/
def c5Fore : Forecasts := fun s =>
  if s = 1 then some [⟨0, 5, 0⟩]
  else if s = 2 then some [⟨0, 5, 10⟩]
  else none

/-- Scenario for P4 (today = 0): one station with today's ERC 20 and next
Wednesday's (= day 2) ERC 25. -/
def c7Fore : Forecasts := fun s =>
  if s = 1 then some [⟨0, 20, 1⟩, ⟨2, 25, 1⟩] else none

/-- Scenario for the order-independence witness: station 1 has two records. -/
def c9Fore : Forecasts := fun s =>
  if s = 1 then some [⟨0, 20, 3⟩, ⟨2, 25, 4⟩]
  else if s = 2 then some [⟨0, 30, 5⟩]
  else none

/-- `c9Fore` with station 1's records swapped. -/
def c9Fore' : Forecasts := fun s =>
  if s = 1 then some [⟨2, 25, 4⟩, ⟨0, 20, 3⟩]
  else if s = 2 then some [⟨0, 30, 5⟩]
  else none

/-- Percentile table for the order-independence witness. -/
def c9Pct : ℕ → Option PctRec := fun s =>
  if s = 1 then some ⟨60, 70, 8, 5⟩ else none

/-- Climatology table for the order-independence witness. -/
def c9Climo : ℕ → Option ClimoRec := fun s =>
  if s = 2 then some ⟨40, 9⟩ else none

/-- Evaluation of `round1` at a rational whose tenfold is an integer: no
rounding happens (all values the claims exercise are exact at one decimal). -/
theorem round1_eval (x : ℚ) (a : ℤ) (h : 10 * x = a) : round1 x = a / 10 := by
  unfold round1
  rw [h]
  simp

/-- `safe_mean` unfolded through its `let`. -/
theorem safe_mean_eq_ite (values : List ℚ) :
    safe_mean values =
      if (validFilter values).isEmpty then 0 else round1 (mean (validFilter values)) := rfl

/-- On a nonempty list of strictly positive values, `_safe_mean` is the
rounded arithmetic mean. -/
theorem safe_mean_all_pos (vals : List ℚ) (h1 : vals ≠ []) (h2 : ∀ v ∈ vals, 0 < v) :
    safe_mean vals = round1 (vals.sum / vals.length) := by
  have hf : validFilter vals = vals := by
    apply List.filter_eq_self.mpr
    intro v hv
    have h := h2 v hv
    simp [ne_of_gt h, h]
  rw [safe_mean_eq_ite, hf, if_neg (by simp [List.isEmpty_iff, h1])]
  rfl

/-- When nothing survives the validity filter, `_safe_mean` returns `0.0`. -/
theorem safe_mean_empty_filter (values : List ℚ) (h : validFilter values = []) :
    safe_mean values = 0 := by
  rw [safe_mean_eq_ite, h]
  rfl

/-- C2, counterexample: with zero contributing stations the code's
aggregated day value is the number `0.0`, not an absent/null entry as the
claim demands (`spec_day_value` renders the claim's wording). -/
theorem C2_counterexample :
    safe_mean [] = 0 ∧ spec_day_value [] = none ∧
    some (safe_mean []) ≠ spec_day_value [] :=
  ⟨rfl, rfl, by decide⟩

/-- C2, amended: the aggregated value is the arithmetic mean of the valid
contributing station values rounded to one decimal ([10, 20] with one
missing station average to 15.0 through the aggregator), but when zero
stations contribute the day's value is `0.0` — a number, not null. -/
theorem C2_aggregation_mean (vals : List ℚ) (today : ℤ)
    (h1 : vals ≠ []) (h2 : ∀ v ∈ vals, 0 < v) :
    safe_mean vals = round1 (vals.sum / vals.length) ∧
    erc_row today [1, 2, 3] (c2Fore today) .td = 15 ∧
    erc_row today [1, 2, 3] (fun _ => none) .td = 0 := by
  refine ⟨safe_mean_all_pos vals h1 h2, ?_, ?_⟩
  · rw [erc_row, show erc_by_day today [1, 2, 3] (c2Fore today) .td = [10, 20] from by
      norm_num [erc_by_day, getObs, c2Fore, day_map, List.filterMap_cons]]
    rw [safe_mean_all_pos _ (by decide) (by decide), round1_eval _ 150 (by norm_num)]
    norm_num
  · rw [erc_row, show erc_by_day today [1, 2, 3] (fun _ => none) .td = [] from rfl]
    exact safe_mean_empty_filter _ rfl

/-- C2, witness: the amended theorem applied at the valid inputs [10, 20]. -/
theorem C2_witness :
    ([(10 : ℚ), 20] ≠ [] ∧ ∀ v ∈ [(10 : ℚ), 20], 0 < v) ∧
    safe_mean [10, 20] = round1 (([(10 : ℚ), 20]).sum / ([(10 : ℚ), 20]).length) ∧
    erc_row 0 [1, 2, 3] (c2Fore 0) .td = 15 ∧
    erc_row 0 [1, 2, 3] (fun _ => none) .td = 0 :=
  ⟨⟨by decide, by decide⟩, C2_aggregation_mean [10, 20] 0 (by decide) (by decide)⟩

/-- C4, counterexample: when the baseline file is absent, `load_baseline`
returns the empty store and the per-PSA lookup returns an empty entry —
nothing fails, no `BaselineUnavailableError` exists anywhere in the code. -/
theorem C4_counterexample :
    load_baseline .absent = ⟨[]⟩ ∧
    get_psa_baseline "Great Basin" "GB01" (load_baseline .absent) = [] :=
  ⟨rfl, rfl⟩

/-- C4, amended: if the climatology baseline file cannot be found,
`load_baseline` silently degrades to an empty store (every zone lookup
yields an empty baseline entry) and the fetch cycle proceeds; the fetch
orchestrator `fetch_gacc_data` never consults the baseline at all. -/
theorem C4_absent_baseline_silently_empty (gacc_name psa_id : String) :
    load_baseline .absent = ⟨[]⟩ ∧
    get_psa_baseline gacc_name psa_id (load_baseline .absent) = [] :=
  ⟨rfl, rfl⟩

/-- C5, counterexample: a station FM value of exactly zero is NOT treated as
valid — with station FM values {0, 10} on today's date the aggregated FM is
10.0 (the zero is dropped), not the 5.0 the claim's rule would give. -/
theorem C5_counterexample :
    fm_row 0 [1, 2] c5Fore .td = 10 ∧
    round1 ((0 + 10) / 2) = 5 ∧
    fm_row 0 [1, 2] c5Fore .td ≠ round1 ((0 + 10) / 2) := by
  have h10 : fm_row 0 [1, 2] c5Fore .td = 10 := by
    rw [fm_row, show fm_by_day 0 [1, 2] c5Fore .td = [10] from by decide]
    rw [safe_mean_all_pos _ (by decide) (by decide), round1_eval _ 100 (by norm_num)]
    norm_num
  have h5 : round1 ((0 + 10 : ℚ) / 2) = 5 := by
    rw [round1_eval _ 50 (by norm_num)]
    norm_num
  refine ⟨h10, h5, ?_⟩
  rw [h10, h5]
  norm_num

/-- C5, amended: zero (or negative) station values are excluded from
aggregation for EVERY field of this pipeline — fuel moisture exactly like
the ERC index; only strictly positive values ever contribute. -/
theorem C5_strictly_positive_only (today : ℤ) (ids : List ℕ) (fore : Forecasts)
    (l : Label) :
    (∀ v ∈ erc_by_day today ids fore l, 0 < v) ∧
    (∀ v ∈ fm_by_day today ids fore l, 0 < v) := by
  constructor
  all_goals
    intro v hv
    simp only [erc_by_day, fm_by_day, List.mem_flatMap, List.mem_filterMap] at hv
    obtain ⟨sid, -, obs, -, hcond⟩ := hv
    split at hcond
    next h =>
      cases hcond
      exact h.2
    next =>
      exact absurd hcond (by simp)

/-- C5, witness: the amended theorem applied to the {0, 10} scenario — the
surviving FM contribution 10 is strictly positive. -/
theorem C5_witness :
    (10 : ℚ) ∈ fm_by_day 0 [1, 2] c5Fore .td ∧ (0 : ℚ) < 10 :=
  ⟨by decide, (C5_strictly_positive_only 0 [1, 2] c5Fore .td).2 10 (by decide)⟩

/-- C6: the alert classifier at thresholds p90 = 10, p95 = 15, p97 = 20
returns CRITICAL for 20, HIGH for 16, ELEVATED for 11, NORMAL for 5 and
UNKNOWN for a null value; in general a null value is UNKNOWN and present
(truthy) thresholds are compared in descending severity order with the
first satisfied condition winning. -/
theorem C6_alert_tier_ordering :
    alert_level (some 20) (some 10) (some 15) (some 20) = .CRITICAL ∧
    alert_level (some 16) (some 10) (some 15) (some 20) = .HIGH ∧
    alert_level (some 11) (some 10) (some 15) (some 20) = .ELEVATED ∧
    alert_level (some 5) (some 10) (some 15) (some 20) = .NORMAL ∧
    alert_level none (some 10) (some 15) (some 20) = .UNKNOWN ∧
    (∀ (p90 p95 p97 : Option ℚ), alert_level none p90 p95 p97 = .UNKNOWN) ∧
    (∀ (v : ℚ) (p90 p95 p97 : Option ℚ),
      truthy p97 = true → p97.getD 0 ≤ v →
      alert_level (some v) p90 p95 p97 = .CRITICAL) ∧
    (∀ (v : ℚ) (p90 p95 p97 : Option ℚ),
      ¬(truthy p97 = true ∧ p97.getD 0 ≤ v) →
      truthy p95 = true → p95.getD 0 ≤ v →
      alert_level (some v) p90 p95 p97 = .HIGH) ∧
    (∀ (v : ℚ) (p90 p95 p97 : Option ℚ),
      ¬(truthy p97 = true ∧ p97.getD 0 ≤ v) →
      ¬(truthy p95 = true ∧ p95.getD 0 ≤ v) →
      truthy p90 = true → p90.getD 0 ≤ v →
      alert_level (some v) p90 p95 p97 = .ELEVATED) ∧
    (∀ (v : ℚ) (p90 p95 p97 : Option ℚ),
      ¬(truthy p97 = true ∧ p97.getD 0 ≤ v) →
      ¬(truthy p95 = true ∧ p95.getD 0 ≤ v) →
      ¬(truthy p90 = true ∧ p90.getD 0 ≤ v) →
      alert_level (some v) p90 p95 p97 = .NORMAL) := by
  refine ⟨by decide, by decide, by decide, by decide, rfl, fun _ _ _ => rfl,
    ?_, ?_, ?_, ?_⟩
  · intro v p90 p95 p97 h1 h2
    simp only [alert_level, Bool.and_eq_true, decide_eq_true_eq]
    rw [if_pos ⟨h1, h2⟩]
  · intro v p90 p95 p97 h97 h1 h2
    simp only [alert_level, Bool.and_eq_true, decide_eq_true_eq]
    rw [if_neg h97, if_pos ⟨h1, h2⟩]
  · intro v p90 p95 p97 h97 h95 h1 h2
    simp only [alert_level, Bool.and_eq_true, decide_eq_true_eq]
    rw [if_neg h97, if_neg h95, if_pos ⟨h1, h2⟩]
  · intro v p90 p95 p97 h97 h95 h90
    simp only [alert_level, Bool.and_eq_true, decide_eq_true_eq]
    rw [if_neg h97, if_neg h95, if_neg h90]

/-- C6, witness: the descending-order branch lemmas applied at the claim's
concrete thresholds. -/
theorem C6_witness :
    truthy (some (20 : ℚ)) = true ∧ (some (20 : ℚ)).getD 0 ≤ 20 ∧
    alert_level (some 20) (some 10) (some 15) (some (20 : ℚ)) = .CRITICAL :=
  ⟨by decide, by decide, (C6_alert_tier_ordering.2.2.2.2.2.2.1) 20 (some 10)
    (some 15) (some 20) (by decide) (by decide)⟩

/-- C10: a threshold equal to `0` is falsy in the classifier's guards and
therefore behaves exactly like an absent threshold: with p97 = 0 the result
is never CRITICAL, with p95 = 0 never HIGH, with p90 = 0 never ELEVATED,
and with all three zero every non-null value classifies as NORMAL. -/
theorem C10_zero_threshold_is_absent (v : ℚ) (p90 p95 p97 : Option ℚ) :
    alert_level (some v) p90 p95 (some 0) = alert_level (some v) p90 p95 none ∧
    alert_level (some v) p90 (some 0) p97 = alert_level (some v) p90 none p97 ∧
    alert_level (some v) (some 0) p95 p97 = alert_level (some v) none p95 p97 ∧
    alert_level (some v) p90 p95 (some 0) ≠ .CRITICAL ∧
    alert_level (some v) p90 (some 0) p97 ≠ .HIGH ∧
    alert_level (some v) (some 0) p95 p97 ≠ .ELEVATED ∧
    alert_level (some v) (some 0) (some 0) (some 0) = .NORMAL := by
  have ht : truthy (some (0 : ℚ)) = false := by decide
  have hn : truthy (none : Option ℚ) = false := rfl
  refine ⟨?_, ?_, ?_, ?_, ?_, ?_, ?_⟩
  · simp only [alert_level, ht, hn, Bool.false_and]
  · simp only [alert_level, ht, hn, Bool.false_and]
  · simp only [alert_level, ht, hn, Bool.false_and]
  · simp only [alert_level, ht, Bool.false_and, Bool.false_eq_true, if_false]
    split
    · simp
    · split <;> simp
  · simp only [alert_level, ht, Bool.false_and, Bool.false_eq_true, if_false]
    split
    · simp
    · split <;> simp
  · simp only [alert_level, ht, Bool.false_and, Bool.false_eq_true, if_false]
    split
    · simp
    · split <;> simp
  · simp only [alert_level, ht, Bool.false_and, Bool.false_eq_true, if_false]

/-- C1, counterexample: three consecutive timeouts do NOT degrade to a
"no data" result — `_query` raises `RuntimeError("All 3 attempts failed")`
and `_fetch_batched` has no handler, so the error aborts the batch loop
(and with it the whole fetch cycle) instead of continuing. -/
theorem C1_counterexample :
    runAttempts [.timeout, .timeout, .timeout] = .error .allFailed ∧
    fetch_batched [0] (fun _ => runAttempts [.timeout, .timeout, .timeout]) =
      .error .allFailed :=
  ⟨rfl, rfl⟩

/-- C1, amended: a station batch whose fetch keeps timing out is retried up
to the fixed bound of 3 attempts with exponential backoff (sleeping 2¹ then
2² seconds between attempts), after which `_query` raises
`RuntimeError("All 3 attempts failed")`; the error propagates through
`_fetch_batched` uncaught and aborts the overall fetch cycle — it is not
converted into a per-station "no data" result. -/
theorem C1_retry_exhaustion_aborts :
    (∀ rs : List AttemptRes, rs.length = 3 → (∀ r ∈ rs, r = .timeout) →
      runAttempts rs = .error .allFailed ∧ backoffSleeps 1 rs = [2, 4]) ∧
    (∀ (c : ℕ) (chunks : List ℕ) (fetch_fn : ℕ → Except QueryErr ℕ),
      fetch_fn c = .error .allFailed →
      fetch_batched (c :: chunks) fetch_fn = .error .allFailed) := by
  constructor
  · intro rs hlen hall
    rcases rs with - | ⟨a, - | ⟨b, - | ⟨c, - | ⟨d, tl⟩⟩⟩⟩ <;> simp_all
    obtain ⟨ha, hb, hc⟩ := hall
    subst ha
    subst hb
    subst hc
    exact ⟨rfl, rfl⟩
  · intro c chunks fetch_fn hf
    simp [fetch_batched, hf]

/-- C1, witness: the amended theorem at the all-timeout attempt list and a
one-chunk batch. -/
theorem C1_witness :
    ([AttemptRes.timeout, .timeout, .timeout].length = 3 ∧
      ∀ r ∈ [AttemptRes.timeout, .timeout, .timeout], r = .timeout) ∧
    (runAttempts [.timeout, .timeout, .timeout] = .error .allFailed ∧
      backoffSleeps 1 [.timeout, .timeout, .timeout] = [2, 4]) ∧
    fetch_batched [5] (fun _ => .error .allFailed) = .error .allFailed :=
  ⟨⟨rfl, by decide⟩,
    C1_retry_exhaustion_aborts.1 [.timeout, .timeout, .timeout] rfl (by decide),
    C1_retry_exhaustion_aborts.2 5 [] (fun _ => .error .allFailed) rfl⟩

/-- C8: an HTTP 401/403 response makes `_query` raise `PermissionError`
immediately — whatever attempts would remain, no retry happens and no
backoff sleep is taken — and the error propagates through `_fetch_batched`
(which has no handler) to the caller of the fetch cycle. -/
theorem C8_auth_failure_fatal :
    (∀ rest : List AttemptRes,
      runAttempts (.httpErr 401 :: rest) = .error (.auth 401) ∧
      backoffSleeps 1 (.httpErr 401 :: rest) = []) ∧
    (∀ rest : List AttemptRes,
      runAttempts (.httpErr 403 :: rest) = .error (.auth 403) ∧
      backoffSleeps 1 (.httpErr 403 :: rest) = []) ∧
    (∀ (c : ℕ) (chunks : List ℕ) (fetch_fn : ℕ → Except QueryErr ℕ),
      fetch_fn c = .error (.auth 401) →
      fetch_batched (c :: chunks) fetch_fn = .error (.auth 401)) := by
  refine ⟨fun rest => ?_, fun rest => ?_, fun c chunks fetch_fn hf => ?_⟩
  · cases rest <;> exact ⟨by simp [runAttempts], by simp [backoffSleeps]⟩
  · cases rest <;> exact ⟨by simp [runAttempts], by simp [backoffSleeps]⟩
  · simp [fetch_batched, hf]

/-- C8, witness: the theorem at a single-attempt run and a one-chunk batch. -/
theorem C8_witness :
    runAttempts [.httpErr 401] = .error (.auth 401) ∧
    fetch_batched [7] (fun _ => .error (.auth 401)) = .error (.auth 401) :=
  ⟨(C8_auth_failure_fatal.1 []).1,
    C8_auth_failure_fatal.2.2 7 [] (fun _ => .error (.auth 401)) rfl⟩

/-- `next_weekday` lands strictly after `d`, within 7 days, on the target
weekday. -/
theorem next_weekday_props (d wd : ℤ) :
    d < next_weekday d wd ∧ next_weekday d wd ≤ d + 7 ∧
    next_weekday d wd % 7 = wd % 7 := by
  simp only [next_weekday, weekday]
  split <;> omega

/-- C3, counterexample: with "today" a Thursday (day 3 of the Monday-zero
epoch), the next Thursday is 7 days out but the next Friday only 1, so the
dates are NOT monotonically increasing under the fixed label ordering
[yd, td, Wed, Thu, Fri, Sat, Sun, Mon]. -/
theorem C3_counterexample :
    weekday 3 = 3 ∧
    day_map 3 .Thu = 10 ∧ day_map 3 .Fri = 4 ∧
    ¬ day_map 3 .Thu < day_map 3 .Fri := by
  refine ⟨rfl, by decide, by decide, by decide⟩

/-- C3, amended: for any fixed "today" the mapper produces exactly 8
pairwise-distinct calendar dates; yesterday precedes today and every
forecast-label date lies strictly after today (within a week); the `Mon`
label is always a Monday strictly after today, and agrees with the
fetch window's end bound computed in `fetch_forecast`.  The 8 dates are not
in increasing order under the fixed label ordering in general. -/
theorem C3_day_window_mapper (today : ℤ) :
    (dayLabels.map (day_map today)).Nodup ∧
    day_map today .yd < day_map today .td ∧
    (∀ l ∈ forecastLabels,
      day_map today .td < day_map today l ∧ day_map today l ≤ today + 7) ∧
    day_map today .Mon % 7 = 0 ∧
    today < day_map today .Mon ∧
    fetch_window_monday today = day_map today .Mon := by
  have h2 := next_weekday_props today 2
  have h3 := next_weekday_props today 3
  have h4 := next_weekday_props today 4
  have h5 := next_weekday_props today 5
  have h6 := next_weekday_props today 6
  have h0 := next_weekday_props today 0
  refine ⟨?_, ?_, ?_, ?_, h0.1, ?_⟩
  · simp only [dayLabels, day_map, List.map_cons, List.map_nil,
      List.nodup_cons, List.mem_cons, List.mem_singleton, List.not_mem_nil,
      List.nodup_nil, and_true, not_or, not_false_eq_true]
    omega
  · simp only [day_map]
    omega
  · intro l hl
    cases l with
    | yd => exact absurd hl (by decide)
    | td => exact absurd hl (by decide)
    | Wed => exact ⟨h2.1, h2.2.1⟩
    | Thu => exact ⟨h3.1, h3.2.1⟩
    | Fri => exact ⟨h4.1, h4.2.1⟩
    | Sat => exact ⟨h5.1, h5.2.1⟩
    | Sun => exact ⟨h6.1, h6.2.1⟩
    | Mon => exact ⟨h0.1, h0.2.1⟩
  · simp only [day_map]
    omega
  · simp only [fetch_window_monday, next_weekday, weekday, day_map] at h0 ⊢
    omega

/-- C3, witness: the amended theorem's forecast-label conjunct instantiated
at today = 0 (a Monday) and the `Wed` label. -/
theorem C3_witness :
    Label.Wed ∈ forecastLabels ∧
    day_map 0 .td < day_map 0 .Wed ∧ day_map 0 .Wed ≤ (0 : ℤ) + 7 :=
  ⟨by decide, (C3_day_window_mapper 0).2.2.1 .Wed (by decide)⟩

/-- C7: for every zone and every input, the trend entry for today is exactly
0.0 and yesterday has no trend entry; every forecast-day entry is that day's
ERC average minus today's ERC average rounded to one decimal (today's
average being `0.0` — never null — when no station contributed); concretely,
today's average 20.0 and Wednesday's 25.0 give Trend[Wed] = 5.0. -/
theorem C7_trend_series (today : ℤ) (ids : List ℕ) (fore : Forecasts) :
    erc_trend_row today ids fore .td = some 0 ∧
    erc_trend_row today ids fore .yd = none ∧
    (∀ l ∈ forecastLabels,
      erc_trend_row today ids fore l =
        some (round1 (erc_row today ids fore l - erc_row today ids fore .td))) ∧
    erc_row 0 [1] c7Fore .td = 20 ∧
    erc_row 0 [1] c7Fore .Wed = 25 ∧
    erc_trend_row 0 [1] c7Fore .Wed = some 5 := by
  have ht : erc_row 0 [1] c7Fore .td = 20 := by
    rw [erc_row, show erc_by_day 0 [1] c7Fore .td = [20] from by decide,
      safe_mean_all_pos _ (by decide) (by decide), round1_eval _ 200 (by norm_num)]
    norm_num
  have hw : erc_row 0 [1] c7Fore .Wed = 25 := by
    rw [erc_row, show erc_by_day 0 [1] c7Fore .Wed = [25] from by decide,
      safe_mean_all_pos _ (by decide) (by decide), round1_eval _ 250 (by norm_num)]
    norm_num
  refine ⟨rfl, rfl, ?_, ht, hw, ?_⟩
  · intro l hl
    cases l with
    | yd => exact absurd hl (by decide)
    | td => exact absurd hl (by decide)
    | Wed => rfl
    | Thu => rfl
    | Fri => rfl
    | Sat => rfl
    | Sun => rfl
    | Mon => rfl
  · rw [show erc_trend_row 0 [1] c7Fore .Wed =
        some (round1 (erc_row 0 [1] c7Fore .Wed - erc_row 0 [1] c7Fore .td)) from rfl,
      ht, hw, round1_eval _ 50 (by norm_num)]
    norm_num

/-- C7, witness: the forecast-label conjunct at the P4 scenario and `Wed`. -/
theorem C7_witness :
    Label.Wed ∈ forecastLabels ∧
    erc_trend_row 0 [1] c7Fore .Wed =
      some (round1 (erc_row 0 [1] c7Fore .Wed - erc_row 0 [1] c7Fore .td)) :=
  ⟨by decide, (C7_trend_series 0 [1] c7Fore).2.2.1 .Wed (by decide)⟩

/-- A pointwise-permuted forecasts entry yields a permuted record list. -/
theorem optPerm_getD : ∀ {a b : Option (List Obs)}, OptPerm a b →
    (a.getD []).Perm (b.getD [])
  | none, none, _ => .refl _
  | some _, some _, h => h
  | none, some _, h => nomatch h
  | some _, none, h => nomatch h

/-- Pointwise-permuted forecasts agree on which stations are present. -/
theorem optPerm_isSome : ∀ {a b : Option (List Obs)}, OptPerm a b →
    a.isSome = b.isSome
  | none, none, _ => rfl
  | some _, some _, _ => rfl
  | none, some _, h => nomatch h
  | some _, none, h => nomatch h

/-- `flatMap` respects permutation of the outer list and pointwise
permutation of the inner lists. -/
theorem flatMap_perm {α β : Type} {l₁ l₂ : List α} {f g : α → List β}
    (h : l₁.Perm l₂) (hfg : ∀ a, (f a).Perm (g a)) :
    (l₁.flatMap f).Perm (l₂.flatMap g) :=
  (List.Perm.flatMap_left l₁ (fun a _ => hfg a)).trans (h.flatMap_right g)

/-- Permuting the stations and their records permutes each day's ERC pool. -/
theorem erc_by_day_perm (today : ℤ) {ids ids' : List ℕ} {fore fore' : Forecasts}
    (hids : ids.Perm ids') (hfore : ∀ s, OptPerm (fore s) (fore' s)) (l : Label) :
    (erc_by_day today ids fore l).Perm (erc_by_day today ids' fore' l) :=
  flatMap_perm hids (fun s => (optPerm_getD (hfore s)).filterMap _)

/-- Permuting the stations and their records permutes each day's FM pool. -/
theorem fm_by_day_perm (today : ℤ) {ids ids' : List ℕ} {fore fore' : Forecasts}
    (hids : ids.Perm ids') (hfore : ∀ s, OptPerm (fore s) (fore' s)) (l : Label) :
    (fm_by_day today ids fore l).Perm (fm_by_day today ids' fore' l) :=
  flatMap_perm hids (fun s => (optPerm_getD (hfore s)).filterMap _)

/-- `_safe_mean` is invariant under permutation of its input. -/
theorem safe_mean_perm {p q : List ℚ} (h : p.Perm q) :
    safe_mean p = safe_mean q := by
  have hf : (validFilter p).Perm (validFilter q) := h.filter _
  have he : (validFilter p).isEmpty = (validFilter q).isEmpty := hf.isEmpty_eq
  have hm : mean (validFilter p) = mean (validFilter q) := by
    unfold mean
    rw [hf.sum_eq, hf.length_eq]
  rw [safe_mean_eq_ite, safe_mean_eq_ite, he, hm]

/-- Day-level ERC averages are order-independent. -/
theorem erc_row_perm (today : ℤ) {ids ids' : List ℕ} {fore fore' : Forecasts}
    (hids : ids.Perm ids') (hfore : ∀ s, OptPerm (fore s) (fore' s)) (l : Label) :
    erc_row today ids fore l = erc_row today ids' fore' l :=
  safe_mean_perm (erc_by_day_perm today hids hfore l)

/-- Day-level FM averages are order-independent. -/
theorem fm_row_perm (today : ℤ) {ids ids' : List ℕ} {fore fore' : Forecasts}
    (hids : ids.Perm ids') (hfore : ∀ s, OptPerm (fore s) (fore' s)) (l : Label) :
    fm_row today ids fore l = fm_row today ids' fore' l :=
  safe_mean_perm (fm_by_day_perm today hids hfore l)

/-- The trend series is order-independent. -/
theorem erc_trend_row_perm (today : ℤ) {ids ids' : List ℕ}
    {fore fore' : Forecasts}
    (hids : ids.Perm ids') (hfore : ∀ s, OptPerm (fore s) (fore' s)) :
    erc_trend_row today ids fore = erc_trend_row today ids' fore' := by
  funext l
  have htd := erc_row_perm today hids hfore .td
  cases l with
  | yd => rfl
  | td => rfl
  | Wed =>
    show some (round1 (safe_mean (erc_by_day today ids fore .Wed) -
        erc_row today ids fore .td)) =
      some (round1 (safe_mean (erc_by_day today ids' fore' .Wed) -
        erc_row today ids' fore' .td))
    rw [safe_mean_perm (erc_by_day_perm today hids hfore .Wed), htd]
  | Thu =>
    show some (round1 (safe_mean (erc_by_day today ids fore .Thu) -
        erc_row today ids fore .td)) =
      some (round1 (safe_mean (erc_by_day today ids' fore' .Thu) -
        erc_row today ids' fore' .td))
    rw [safe_mean_perm (erc_by_day_perm today hids hfore .Thu), htd]
  | Fri =>
    show some (round1 (safe_mean (erc_by_day today ids fore .Fri) -
        erc_row today ids fore .td)) =
      some (round1 (safe_mean (erc_by_day today ids' fore' .Fri) -
        erc_row today ids' fore' .td))
    rw [safe_mean_perm (erc_by_day_perm today hids hfore .Fri), htd]
  | Sat =>
    show some (round1 (safe_mean (erc_by_day today ids fore .Sat) -
        erc_row today ids fore .td)) =
      some (round1 (safe_mean (erc_by_day today ids' fore' .Sat) -
        erc_row today ids' fore' .td))
    rw [safe_mean_perm (erc_by_day_perm today hids hfore .Sat), htd]
  | Sun =>
    show some (round1 (safe_mean (erc_by_day today ids fore .Sun) -
        erc_row today ids fore .td)) =
      some (round1 (safe_mean (erc_by_day today ids' fore' .Sun) -
        erc_row today ids' fore' .td))
    rw [safe_mean_perm (erc_by_day_perm today hids hfore .Sun), htd]
  | Mon =>
    show some (round1 (safe_mean (erc_by_day today ids fore .Mon) -
        erc_row today ids fore .td)) =
      some (round1 (safe_mean (erc_by_day today ids' fore' .Mon) -
        erc_row today ids' fore' .td))
    rw [safe_mean_perm (erc_by_day_perm today hids hfore .Mon), htd]

/-- C9: zone aggregation is order-independent — permuting the member
station list and each station's record list leaves the whole per-PSA
output (day series, baseline aggregates, trend series, coverage counts)
unchanged. -/
theorem C9_aggregation_order_independent (today : ℤ) (ids ids' : List ℕ)
    (pct : ℕ → Option PctRec) (climo : ℕ → Option ClimoRec)
    (fore fore' : Forecasts)
    (hids : ids.Perm ids') (hfore : ∀ s, OptPerm (fore s) (fore' s)) :
    aggregate_to_psa today ids pct climo fore =
      aggregate_to_psa today ids' pct climo fore' := by
  unfold aggregate_to_psa
  have hpred : (fun s => (fore s).isSome) = (fun s => (fore' s).isSome) :=
    funext fun s => optPerm_isSome (hfore s)
  congr 1
  · unfold presentVals
    congr 1
    · exact funext fun l => erc_row_perm today hids hfore l
    · exact safe_mean_perm (hids.filterMap _)
    · exact safe_mean_perm (hids.filterMap _)
    · exact safe_mean_perm (hids.filterMap _)
  · unfold presentVals
    congr 1
    · exact funext fun l => fm_row_perm today hids hfore l
    · exact safe_mean_perm (hids.filterMap _)
    · exact safe_mean_perm (hids.filterMap _)
    · exact safe_mean_perm (hids.filterMap _)
  · exact erc_trend_row_perm today hids hfore
  · exact hids.length_eq
  · rw [hpred, (hids.filter _).length_eq]

/-- C9, witness: the theorem at a two-station zone with the station list
reversed and station 1's two records swapped. -/
theorem C9_witness :
    [1, 2].Perm [2, 1] ∧
    aggregate_to_psa 0 [1, 2] c9Pct c9Climo c9Fore =
      aggregate_to_psa 0 [2, 1] c9Pct c9Climo c9Fore' :=
  ⟨by decide,
    C9_aggregation_order_independent 0 [1, 2] [2, 1] c9Pct c9Climo c9Fore
      c9Fore' (by decide)
      (fun s => by
        by_cases h1 : s = 1
        · simp [c9Fore, c9Fore', h1, OptPerm]
          decide
        · by_cases h2 : s = 2 <;> simp [c9Fore, c9Fore', h1, h2, OptPerm])⟩

end GaccFire
